import Mathlib

/-!
Shallow embedding of the EquiLease MVP core (src/equilease.py): the risk
scoring engine `calculate_risk_score`, the terms generator
`generate_deal_terms`, the deal filter `filter_deals`, and the status
transition `update_deal_status`, together with theorems settling the
frozen claims about them.

Python numbers are modelled as exact rationals (`ℚ`); Python's `round`
(banker's rounding, round half to even) is modelled by `roundHalfEven`.
Optional dictionary fields are modelled as `Option` with the same defaults
the source passes to `dict.get`.
-/

namespace EquiLease

/-- Round half to even, the rounding mode of Python's built-in `round`. -/
def roundHalfEven (q : ℚ) : ℤ :=
  if q - ⌊q⌋ < 1/2 then ⌊q⌋
  else if 1/2 < q - ⌊q⌋ then ⌊q⌋ + 1
  else if 2 ∣ ⌊q⌋ then ⌊q⌋ else ⌊q⌋ + 1

/-- Python `round(x, 1)`: round to one decimal place, half to even. -/
def roundTo1 (q : ℚ) : ℚ := (roundHalfEven (10 * q) : ℚ) / 10

/-- Python `round(x, 0)`: round to a whole number, half to even. -/
def roundTo0 (q : ℚ) : ℚ := (roundHalfEven q : ℚ)

theorem roundHalfEven_intCast (n : ℤ) : roundHalfEven (n : ℚ) = n := by
  unfold roundHalfEven
  simp

theorem roundTo1_intCast (n : ℤ) : roundTo1 (n : ℚ) = n := by
  unfold roundTo1
  have h : (10 : ℚ) * n = ((10 * n : ℤ) : ℚ) := by push_cast; ring
  rw [h, roundHalfEven_intCast]
  push_cast
  ring

theorem roundHalfEven_le_floor_add_one (q : ℚ) :
    roundHalfEven q ≤ ⌊q⌋ + 1 := by
  unfold roundHalfEven
  split_ifs <;> omega

theorem floor_le_roundHalfEven (q : ℚ) : ⌊q⌋ ≤ roundHalfEven q := by
  unfold roundHalfEven
  split_ifs <;> omega

theorem roundHalfEven_mono {a b : ℚ} (h : a ≤ b) :
    roundHalfEven a ≤ roundHalfEven b := by
  have hf : ⌊a⌋ ≤ ⌊b⌋ := Int.floor_le_floor h
  rcases eq_or_lt_of_le hf with heq | hlt
  · have hfa : ((⌊a⌋ : ℤ) : ℚ) = ((⌊b⌋ : ℤ) : ℚ) := by rw [heq]
    unfold roundHalfEven
    have hr : a - (⌊a⌋ : ℚ) ≤ b - (⌊b⌋ : ℚ) := by rw [← hfa]; linarith
    split_ifs <;> first | omega | (exfalso; linarith)
  · calc roundHalfEven a ≤ ⌊a⌋ + 1 := roundHalfEven_le_floor_add_one a
      _ ≤ ⌊b⌋ := by omega
      _ ≤ roundHalfEven b := floor_le_roundHalfEven b

theorem abs_roundHalfEven_sub_le (q : ℚ) :
    |(roundHalfEven q : ℚ) - q| ≤ 1/2 := by
  have h1 : (⌊q⌋ : ℚ) ≤ q := Int.floor_le q
  have h2 : q < (⌊q⌋ : ℚ) + 1 := Int.lt_floor_add_one q
  unfold roundHalfEven
  split_ifs with ha hb hc <;> rw [abs_le] <;> constructor <;>
    simp only [not_lt] at * <;> push_cast <;> linarith

theorem roundTo1_mono {a b : ℚ} (h : a ≤ b) : roundTo1 a ≤ roundTo1 b := by
  unfold roundTo1
  have h10 : (10 : ℚ) * a ≤ 10 * b := by linarith
  have := roundHalfEven_mono h10
  have hcast : ((roundHalfEven (10 * a) : ℚ)) ≤ ((roundHalfEven (10 * b) : ℚ)) := by
    exact_mod_cast this
  linarith

/-!
## Business profile and risk scoring (src/equilease.py, calculate_risk_score)

The profile is the `business_data` dictionary.  A field the code reads
with `dict.get` may be absent, so it is an `Option`; the default the code
passes to `.get` is applied at each use site, exactly as in the source.
Only the fields `calculate_risk_score` and `generate_deal_terms` read are
modelled.
-/

structure BusinessProfile where
  business_type : Option String
  industry : Option String
  current_revenue : Option ℚ
  projected_revenue_12m : Option ℚ
  team_size : Option ℚ
  has_funding : Option Bool
  funding_raised : Option ℚ
  runway_months : Option ℚ
  founder_experience : Option String
  has_customers : Option Bool
  has_revenue : Option Bool
  space_size : Option ℚ
deriving DecidableEq

/-- The `business_type_risk` dictionary: `some` on its keys, `none` off them. -/
def business_type_risk : String → Option ℤ
  | "SaaS Startup" => some (-10)
  | "E-commerce" => some (-5)
  | "Professional Services" => some (-8)
  | "Manufacturing" => some 0
  | "Restaurant" => some 25
  | "Retail Store" => some 15
  | "Franchise" => some (-5)
  | "Other" => some 10
  | _ => none

/-- The `industry_risk` dictionary. -/
def industry_risk : String → Option ℤ
  | "Technology" => some (-8)
  | "Healthcare" => some (-5)
  | "Finance" => some (-3)
  | "Education" => some 0
  | "Food & Beverage" => some 20
  | "Retail" => some 12
  | "Real Estate" => some 5
  | "Other" => some 8
  | _ => none

/-- The `experience_impact` dictionary. -/
def experience_impact : String → Option ℤ
  | "Previous successful exit" => some (-20)
  | "Serial entrepreneur" => some (-15)
  | "Industry veteran (10+ years)" => some (-12)
  | "First-time founder" => some 10
  | _ => none

/-- `business_type_risk.get(business_data.get('business_type', 'Other'), 0)`. -/
def businessTypeAdjust (bt : Option String) : ℤ :=
  (business_type_risk (bt.getD "Other")).getD 0

/-- `industry_risk.get(business_data.get('industry', 'Other'), 0)`. -/
def industryAdjust (ind : Option String) : ℤ :=
  (industry_risk (ind.getD "Other")).getD 0

/-- Revenue tier adjustment on `business_data.get('current_revenue', 0)`. -/
def revenueAdjust (r : ℚ) : ℤ :=
  if r > 10000 then -15
  else if r > 5000 then -10
  else if r > 1000 then -5
  else 10

/-- Team-size adjustment on `business_data.get('team_size', 1)`. -/
def teamAdjust (t : ℚ) : ℤ :=
  if t > 20 then -10
  else if t > 10 then -8
  else if t > 5 then -5
  else if t < 2 then 15
  else 0

/-- Funding adjustment, applied only when `has_funding` reads true. -/
def fundingAdjust (hasFunding : Bool) (raised : ℚ) : ℤ :=
  if hasFunding then
    if raised > 1000000 then -20
    else if raised > 500000 then -15
    else if raised > 100000 then -10
    else -5
  else 0

/-- Runway adjustment on `business_data.get('runway_months', 0)`.  The
`runway < 3` branch is dead: any such runway already satisfies `runway < 6`. -/
def runwayAdjust (runway : ℚ) : ℤ :=
  if runway > 18 then -10
  else if runway > 12 then -5
  else if runway < 6 then 15
  else if runway < 3 then 25
  else 0

/-- `experience_impact.get(business_data.get('founder_experience', 'First-time founder'), 0)`. -/
def experienceAdjust (fe : Option String) : ℤ :=
  (experience_impact (fe.getD "First-time founder")).getD 0

/-- Space-size adjustment on `business_data.get('space_size', 1000)`. -/
def spaceAdjust (s : ℚ) : ℤ :=
  if s > 5000 then 8
  else if s > 3000 then 5
  else if s < 500 then -3
  else 0

/-- The running `base_score` of `calculate_risk_score` after all
adjustments: the source accumulates with `+=` starting from 50, every
summand an integer literal, so the accumulator is an integer. -/
def riskBase (b : BusinessProfile) : ℤ :=
  50
  + businessTypeAdjust b.business_type
  + industryAdjust b.industry
  + revenueAdjust (b.current_revenue.getD 0)
  + teamAdjust (b.team_size.getD 1)
  + fundingAdjust (b.has_funding.getD false) (b.funding_raised.getD 0)
  + runwayAdjust (b.runway_months.getD 0)
  + experienceAdjust b.founder_experience
  + (if b.has_customers.getD false then -10 else 0)
  + (if b.has_revenue.getD false then -8 else 0)
  + spaceAdjust (b.space_size.getD 1000)

/-- `calculate_risk_score`: `final_score = max(5, min(95, base_score))`
then `round(final_score, 1)`. -/
def calculate_risk_score (b : BusinessProfile) : ℚ :=
  roundTo1 ((max 5 (min 95 (riskBase b)) : ℤ) : ℚ)

/-!
## Terms generation (src/equilease.py, generate_deal_terms)
-/

structure DealTerms where
  risk_score : ℚ
  upfront_rent_percent : ℚ
  equity_percent : ℚ
  revenue_share_percent : ℚ
  revenue_share_years : ℕ
  monthly_rent : ℚ
  monthly_market_rent : ℚ
  deferred_amount : ℚ
  annual_market_rent : ℚ
  revenue_trigger : ℚ
  space_size : ℚ
deriving DecidableEq

/-- `generate_deal_terms(business_data, risk_score)`. -/
def generate_deal_terms (b : BusinessProfile) (risk_score : ℚ) : DealTerms :=
  let risk_multiplier := (risk_score - 50) / 50
  let upfront_rent_percent := max 20 (min 50 (30 + risk_multiplier * 15))
  let equity_percent := max 2 (min 12 (5 + risk_multiplier * 4))
  let revenue_share_percent := max 1 (min 6 (3 + risk_multiplier * 2))
  let revenue_share_years : ℕ :=
    if b.business_type = some "SaaS Startup" ∨ b.business_type = some "E-commerce" then 4
    else if b.business_type = some "Restaurant" then 2
    else 3
  let space_size := b.space_size.getD 1000
  let annual_market_rent := space_size * 25
  let monthly_market_rent := annual_market_rent / 12
  let monthly_rent := monthly_market_rent * (upfront_rent_percent / 100)
  let deferred_amount := monthly_market_rent - monthly_rent
  let current_revenue := b.current_revenue.getD 0
  let revenue_trigger := max (current_revenue * (3/2)) 5000
  { risk_score := risk_score
    upfront_rent_percent := roundTo1 upfront_rent_percent
    equity_percent := roundTo1 equity_percent
    revenue_share_percent := roundTo1 revenue_share_percent
    revenue_share_years := revenue_share_years
    monthly_rent := roundTo0 monthly_rent
    monthly_market_rent := roundTo0 monthly_market_rent
    deferred_amount := roundTo0 deferred_amount
    annual_market_rent := roundTo0 annual_market_rent
    revenue_trigger := roundTo0 revenue_trigger
    space_size := space_size }

/-!
## Deal filtering (src/equilease.py, filter_deals)

A row of the deals DataFrame, restricted to the columns the filter reads.
-/

structure DealRow where
  status : String
  business_type : String
  location : String
  risk_score : ℚ
deriving DecidableEq

/-- The `risk_ranges` dictionary of `filter_deals`, keyed by the strings
the Risk Level selectbox offers. -/
def risk_ranges : String → Option (ℚ × ℚ)
  | "Low (0-40)" => some (0, 40)
  | "Medium (41-70)" => some (41, 70)
  | "High (71-100)" => some (71, 100)
  | _ => none

/-- `filter_deals(df, status_filter, business_type_filter, location_filter,
risk_filter)`.  Each non-"All" filter keeps the matching rows; the risk
filter keeps rows with `min_risk <= risk_score <= max_risk`.  (On a
non-"All" risk filter outside `risk_ranges` the source would raise
`KeyError`; the UI only ever passes the three keys, and this model keeps
the rows unchanged in that unreachable case.) -/
def filter_deals (df : List DealRow) (status_filter business_type_filter
    location_filter risk_filter : String) : List DealRow :=
  let df1 := if status_filter ≠ "All"
    then df.filter (fun d => d.status = status_filter) else df
  let df2 := if business_type_filter ≠ "All"
    then df1.filter (fun d => d.business_type = business_type_filter) else df1
  let df3 := if location_filter ≠ "All"
    then df2.filter (fun d => d.location = location_filter) else df2
  if risk_filter ≠ "All" then
    match risk_ranges risk_filter with
    | some (min_risk, max_risk) =>
        df3.filter (fun d => min_risk ≤ d.risk_score ∧ d.risk_score ≤ max_risk)
    | none => df3
  else df3

/-!
## Deal store status update (src/equilease.py, update_deal_status)

A persisted deal record, restricted to the keys `update_deal_status`
touches; `rest` stands for every remaining key of the record.  `id` is an
`Option` because the source reads it with `deal.get('id')`.  Timestamps
are the `datetime.now().isoformat()` strings; the single `now` argument
stands for the clock readings during the call.
-/

structure Deal where
  id : Option String
  status : String
  updated_at : String
  approved_at : Option String
  rejected_at : Option String
  rest : List (String × String)
deriving DecidableEq

/-- The loop body of `update_deal_status`: walk the loaded list, update
the first deal whose `id` matches (then `break`), leave the rest alone;
the updated list is what `save_deals` persists. -/
def update_deal_status (now : String) (deals : List Deal)
    (deal_id : String) (new_status : String) : List Deal :=
  match deals with
  | [] => []
  | d :: ds =>
    if d.id = some deal_id then
      { d with
        status := new_status
        updated_at := now
        approved_at := if new_status = "approved" then some now else d.approved_at
        rejected_at := if new_status = "rejected" then some now else d.rejected_at } :: ds
    else d :: update_deal_status now ds deal_id new_status

/-!
## Concrete profiles used by the claim theorems
-/

/-- The §8 floor scenario profile: SaaS Startup / Technology, revenue
15000, team 15, funded with 1,200,000 raised, 24 months runway, previous
successful exit, customers and revenue, 2000 sq ft. -/
def pFloor : BusinessProfile :=
  { business_type := some "SaaS Startup", industry := some "Technology",
    current_revenue := some 15000, projected_revenue_12m := none,
    team_size := some 15, has_funding := some true,
    funding_raised := some 1200000, runway_months := some 24,
    founder_experience := some "Previous successful exit",
    has_customers := some true, has_revenue := some true,
    space_size := some 2000 }

/-- A profile whose `business_type` is present but not a key of
`business_type_risk`; all other categorical fields are recognized. -/
def pBakery : BusinessProfile :=
  { business_type := some "Bakery", industry := some "Education",
    current_revenue := some 2000, projected_revenue_12m := none,
    team_size := some 3, has_funding := some false,
    funding_raised := some 0, runway_months := some 10,
    founder_experience := some "Industry veteran (10+ years)",
    has_customers := some false, has_revenue := some false,
    space_size := some 1000 }

/-- `pBakery` with the `business_type` key absent from the dictionary. -/
def pBakeryMissing : BusinessProfile := { pBakery with business_type := none }

/-!
## Evaluation helpers

Concrete rational values are evaluated through the integer layer: the
risk score is the cast of an integer clamp, and each rounding call is
discharged by exhibiting the floor or the exact multiple of 1/10.
-/

lemma calculate_risk_score_eval (b : BusinessProfile) (n : ℤ)
    (h : max 5 (min 95 (riskBase b)) = n) : calculate_risk_score b = (n : ℚ) := by
  unfold calculate_risk_score
  rw [h, roundTo1_intCast]

lemma roundTo1_eq_self (q : ℚ) (n : ℤ) (h : (n : ℚ) = 10 * q) : roundTo1 q = q := by
  unfold roundTo1
  rw [← h, roundHalfEven_intCast, h]
  ring

lemma roundHalfEven_of_fract_lt (q : ℚ) (n : ℤ)
    (h1 : (n : ℚ) ≤ q) (h2 : q < (n : ℚ) + 1/2) : roundHalfEven q = n := by
  have hf : ⌊q⌋ = n := by
    rw [Int.floor_eq_iff]
    constructor
    · exact_mod_cast h1
    · linarith
  unfold roundHalfEven
  rw [hf, if_pos (by linarith)]

lemma roundHalfEven_of_fract_gt (q : ℚ) (n : ℤ)
    (h1 : (n : ℚ) + 1/2 < q) (h2 : q < (n : ℚ) + 1) : roundHalfEven q = n + 1 := by
  have hf : ⌊q⌋ = n := by
    rw [Int.floor_eq_iff]
    constructor
    · linarith
    · linarith
  unfold roundHalfEven
  rw [hf, if_neg (by linarith), if_pos (by linarith)]

/-- Projection of `generate_deal_terms`: the stored upfront rent percent. -/
lemma generate_deal_terms_upfront (b : BusinessProfile) (s : ℚ) :
    (generate_deal_terms b s).upfront_rent_percent
      = roundTo1 (max 20 (min 50 (30 + (s - 50) / 50 * 15))) := rfl

/-- Projection of `generate_deal_terms`: the stored equity percent. -/
lemma generate_deal_terms_equity (b : BusinessProfile) (s : ℚ) :
    (generate_deal_terms b s).equity_percent
      = roundTo1 (max 2 (min 12 (5 + (s - 50) / 50 * 4))) := rfl

/-- Projection of `generate_deal_terms`: the stored revenue share percent. -/
lemma generate_deal_terms_revshare (b : BusinessProfile) (s : ℚ) :
    (generate_deal_terms b s).revenue_share_percent
      = roundTo1 (max 1 (min 6 (3 + (s - 50) / 50 * 2))) := rfl

/-- Projection of `generate_deal_terms`: the stored monthly market rent. -/
lemma generate_deal_terms_mmr (b : BusinessProfile) (s : ℚ) :
    (generate_deal_terms b s).monthly_market_rent
      = roundTo0 (b.space_size.getD 1000 * 25 / 12) := rfl

/-- Projection of `generate_deal_terms`: the stored monthly rent. -/
lemma generate_deal_terms_mr (b : BusinessProfile) (s : ℚ) :
    (generate_deal_terms b s).monthly_rent
      = roundTo0 (b.space_size.getD 1000 * 25 / 12
          * (max 20 (min 50 (30 + (s - 50) / 50 * 15)) / 100)) := rfl

/-- Projection of `generate_deal_terms`: the stored deferred amount. -/
lemma generate_deal_terms_deferred (b : BusinessProfile) (s : ℚ) :
    (generate_deal_terms b s).deferred_amount
      = roundTo0 (b.space_size.getD 1000 * 25 / 12
          - b.space_size.getD 1000 * 25 / 12
            * (max 20 (min 50 (30 + (s - 50) / 50 * 15)) / 100)) := rfl

/-!
## Claim theorems
-/

/-- Claim C1, counterexample: the claim predicts that a present but
unrecognized `business_type` receives the 'Other' adjustment (+10),
exactly as a missing one does, so `pBakery` and `pBakeryMissing` would
score alike; in fact the unrecognized value falls to the dictionary
lookup's second default 0 and the scores differ by 10. -/
theorem calculate_risk_score_unknown_vs_missing :
    calculate_risk_score pBakery = 33 ∧
    calculate_risk_score pBakeryMissing = 43 ∧
    calculate_risk_score pBakery ≠ calculate_risk_score pBakeryMissing := by
  have h1 : calculate_risk_score pBakery = (33 : ℚ) := by
    exact_mod_cast calculate_risk_score_eval pBakery 33 (by decide)
  have h2 : calculate_risk_score pBakeryMissing = (43 : ℚ) := by
    exact_mod_cast calculate_risk_score_eval pBakeryMissing 43 (by decide)
  refine ⟨h1, h2, ?_⟩
  rw [h1, h2]
  norm_num

/-- Claim C1, amended: a missing business_type / industry /
founder_experience receives the designated default adjustment (+10, +8,
+10 respectively, via the 'Other' / 'First-time founder' fallback key),
but a present value outside the recognized enumeration receives
adjustment 0, not the default. -/
theorem calculate_risk_score_default_adjustments (s t u : String)
    (hs : business_type_risk s = none)
    (ht : industry_risk t = none)
    (hu : experience_impact u = none) :
    businessTypeAdjust (some s) = 0 ∧ businessTypeAdjust none = 10 ∧
    industryAdjust (some t) = 0 ∧ industryAdjust none = 8 ∧
    experienceAdjust (some u) = 0 ∧ experienceAdjust none = 10 := by
  refine ⟨?_, by decide, ?_, by decide, ?_, by decide⟩ <;>
    simp [businessTypeAdjust, industryAdjust, experienceAdjust, hs, ht, hu]

/-- Witness for `calculate_risk_score_default_adjustments` at the
unrecognized strings "Bakery", "Farming", "Student". -/
theorem calculate_risk_score_default_adjustments_witness :
    businessTypeAdjust (some "Bakery") = 0 ∧ businessTypeAdjust none = 10 ∧
    industryAdjust (some "Farming") = 0 ∧ industryAdjust none = 8 ∧
    experienceAdjust (some "Student") = 0 ∧ experienceAdjust none = 10 :=
  calculate_risk_score_default_adjustments "Bakery" "Farming" "Student"
    (by decide) (by decide) (by decide)

/-- Claim C2, counterexample: on the §8 floor-scenario profile the score
is the floor 5, but the stored `revenue_share_percent` is 1.2 (the
unclamped 3 + (−0.9)·2), not 1 as the claim states. -/
theorem generate_deal_terms_floor_scenario_revenue_share :
    calculate_risk_score pFloor = 5 ∧
    (generate_deal_terms pFloor (calculate_risk_score pFloor)).revenue_share_percent ≠ 1 := by
  have hs : calculate_risk_score pFloor = (5 : ℚ) := by
    exact_mod_cast calculate_risk_score_eval pFloor 5 (by decide)
  refine ⟨hs, ?_⟩
  rw [hs, generate_deal_terms_revshare]
  have h : max 1 (min 6 (3 + ((5 : ℚ) - 50) / 50 * 2)) = 6/5 := by
    norm_num [min_def, max_def]
  rw [h, roundTo1_eq_self (6/5) 12 (by norm_num)]
  norm_num

/-- Claim C2, amended: on the floor-scenario profile the score is 5 and
the generated terms have upfront_rent_percent 20, equity_percent 2,
revenue_share_percent 1.2 (not 1: 3 + (−0.9)·2 = 1.2 lies inside the
clamp range [1, 6]), and revenue_share_years 4. -/
theorem generate_deal_terms_floor_scenario :
    calculate_risk_score pFloor = 5 ∧
    (generate_deal_terms pFloor (calculate_risk_score pFloor)).upfront_rent_percent = 20 ∧
    (generate_deal_terms pFloor (calculate_risk_score pFloor)).equity_percent = 2 ∧
    (generate_deal_terms pFloor (calculate_risk_score pFloor)).revenue_share_percent = 6/5 ∧
    (generate_deal_terms pFloor (calculate_risk_score pFloor)).revenue_share_years = 4 := by
  have hs : calculate_risk_score pFloor = (5 : ℚ) := by
    exact_mod_cast calculate_risk_score_eval pFloor 5 (by decide)
  rw [hs]
  refine ⟨rfl, ?_, ?_, ?_, by decide⟩
  · rw [generate_deal_terms_upfront]
    have h : max 20 (min 50 (30 + ((5 : ℚ) - 50) / 50 * 15)) = 20 := by
      norm_num [min_def, max_def]
    rw [h, roundTo1_eq_self 20 200 (by norm_num)]
  · rw [generate_deal_terms_equity]
    have h : max 2 (min 12 (5 + ((5 : ℚ) - 50) / 50 * 4)) = 2 := by
      norm_num [min_def, max_def]
    rw [h, roundTo1_eq_self 2 20 (by norm_num)]
  · rw [generate_deal_terms_revshare]
    have h : max 1 (min 6 (3 + ((5 : ℚ) - 50) / 50 * 2)) = 6/5 := by
      norm_num [min_def, max_def]
    rw [h, roundTo1_eq_self (6/5) 12 (by norm_num)]

/-- Claim C3: for every profile the risk score equals the base-plus-
adjustments total clamped to [5, 95] (the rounding to one decimal place
is the identity on this integer value), and in particular lies in the
closed interval [5, 95]. -/
theorem calculate_risk_score_in_range (b : BusinessProfile) :
    calculate_risk_score b = ((max 5 (min 95 (riskBase b)) : ℤ) : ℚ) ∧
    5 ≤ calculate_risk_score b ∧ calculate_risk_score b ≤ 95 := by
  have heq : calculate_risk_score b = ((max 5 (min 95 (riskBase b)) : ℤ) : ℚ) :=
    roundTo1_intCast _
  refine ⟨heq, ?_, ?_⟩
  · rw [heq]
    exact_mod_cast le_max_left 5 (min 95 (riskBase b))
  · rw [heq]
    have : max 5 (min 95 (riskBase b)) ≤ 95 :=
      max_le (by norm_num) (min_le_left _ _)
    exact_mod_cast this

/-- Claim C10: the risk score is always a whole number in {5, …, 95} —
every adjustment is an integer, so clamping and rounding return an
integer — and in particular no score lies strictly between 40 and 41. -/
theorem calculate_risk_score_whole_number (b : BusinessProfile) :
    (∃ n : ℤ, calculate_risk_score b = (n : ℚ) ∧ 5 ≤ n ∧ n ≤ 95) ∧
    ¬ (40 < calculate_risk_score b ∧ calculate_risk_score b < 41) := by
  have heq : calculate_risk_score b = ((max 5 (min 95 (riskBase b)) : ℤ) : ℚ) :=
    roundTo1_intCast _
  constructor
  · refine ⟨max 5 (min 95 (riskBase b)), heq, le_max_left _ _,
      max_le (by norm_num) (min_le_left _ _)⟩
  · rintro ⟨h1, h2⟩
    rw [heq] at h1 h2
    have h1' : (40 : ℤ) < max 5 (min 95 (riskBase b)) := by exact_mod_cast h1
    have h2' : max 5 (min 95 (riskBase b)) < 41 := by exact_mod_cast h2
    omega

/-- Claim C4: for a fixed profile, each of the three stored percentage
fields of `generate_deal_terms` is non-decreasing in the risk score: the
linear formula, the clamp, and the half-even rounding are all monotone. -/
theorem generate_deal_terms_monotone (b : BusinessProfile) (s1 s2 : ℚ) (h : s1 ≤ s2) :
    (generate_deal_terms b s1).upfront_rent_percent
      ≤ (generate_deal_terms b s2).upfront_rent_percent ∧
    (generate_deal_terms b s1).equity_percent
      ≤ (generate_deal_terms b s2).equity_percent ∧
    (generate_deal_terms b s1).revenue_share_percent
      ≤ (generate_deal_terms b s2).revenue_share_percent := by
  refine ⟨?_, ?_, ?_⟩
  · rw [generate_deal_terms_upfront, generate_deal_terms_upfront]
    exact roundTo1_mono (max_le_max le_rfl (min_le_min le_rfl (by linarith)))
  · rw [generate_deal_terms_equity, generate_deal_terms_equity]
    exact roundTo1_mono (max_le_max le_rfl (min_le_min le_rfl (by linarith)))
  · rw [generate_deal_terms_revshare, generate_deal_terms_revshare]
    exact roundTo1_mono (max_le_max le_rfl (min_le_min le_rfl (by linarith)))

/-- Witness for `generate_deal_terms_monotone` at scores 10 ≤ 60. -/
theorem generate_deal_terms_monotone_witness :
    (generate_deal_terms pBakery 10).upfront_rent_percent
      ≤ (generate_deal_terms pBakery 60).upfront_rent_percent ∧
    (generate_deal_terms pBakery 10).equity_percent
      ≤ (generate_deal_terms pBakery 60).equity_percent ∧
    (generate_deal_terms pBakery 10).revenue_share_percent
      ≤ (generate_deal_terms pBakery 60).revenue_share_percent :=
  generate_deal_terms_monotone pBakery 10 60 (by norm_num)

/-- `pBakery` with a 1200 sq ft space, the §8 market-rent scenario. -/
def p1200 : BusinessProfile := { pBakery with space_size := some 1200 }

/-- Claim C5, counterexample: with the positive space size 1000 the
stored `monthly_market_rent` is the rounded 2083, not the exact
(1000 × 25)/12 = 6250/3 the claim requires. -/
theorem monthly_market_rent_not_exact :
    pBakery.space_size = some 1000 ∧ (0 : ℚ) < 1000 ∧
    (generate_deal_terms pBakery 50).monthly_market_rent ≠ (1000 : ℚ) * 25 / 12 := by
  refine ⟨rfl, by norm_num, ?_⟩
  rw [generate_deal_terms_mmr]
  have hg : pBakery.space_size.getD 1000 = (1000 : ℚ) := rfl
  rw [hg]
  have h : roundTo0 ((1000 : ℚ) * 25 / 12) = 2083 := by
    have h1 : (1000 : ℚ) * 25 / 12 = 6250 / 3 := by norm_num
    rw [h1]
    unfold roundTo0
    rw [roundHalfEven_of_fract_lt (6250 / 3) 2083 (by norm_num) (by norm_num)]
    norm_num
  rw [h]
  norm_num

/-- Claim C5, amended: for every profile with a present, positive
space size and every risk score, the stored `monthly_market_rent` is
(space_size × 25)/12 rounded half-even to a whole currency unit; it
equals the exact quotient whenever that quotient is an integer, and in
particular equals 2500 for space_size = 1200. -/
theorem monthly_market_rent_rounded (b : BusinessProfile) (s : ℚ) (sp : ℚ)
    (hsp : b.space_size = some sp) (hpos : 0 < sp) :
    (generate_deal_terms b s).monthly_market_rent = roundTo0 (sp * 25 / 12) ∧
    (∀ n : ℤ, sp * 25 / 12 = (n : ℚ) →
      (generate_deal_terms b s).monthly_market_rent = sp * 25 / 12) ∧
    (sp = 1200 → (generate_deal_terms b s).monthly_market_rent = 2500) := by
  have hproj : (generate_deal_terms b s).monthly_market_rent = roundTo0 (sp * 25 / 12) := by
    rw [generate_deal_terms_mmr, hsp, Option.getD_some]
  refine ⟨hproj, ?_, ?_⟩
  · rintro n hn
    rw [hproj, hn]
    unfold roundTo0
    rw [roundHalfEven_intCast]
  · rintro rfl
    rw [hproj]
    have h : (1200 : ℚ) * 25 / 12 = ((2500 : ℤ) : ℚ) := by norm_num
    rw [h]
    unfold roundTo0
    rw [roundHalfEven_intCast]
    norm_num

/-- Witness for `monthly_market_rent_rounded` at `p1200` (space 1200). -/
theorem monthly_market_rent_rounded_witness :
    (generate_deal_terms p1200 50).monthly_market_rent = roundTo0 (1200 * 25 / 12) ∧
    (∀ n : ℤ, (1200 : ℚ) * 25 / 12 = (n : ℚ) →
      (generate_deal_terms p1200 50).monthly_market_rent = 1200 * 25 / 12) ∧
    ((1200 : ℚ) = 1200 → (generate_deal_terms p1200 50).monthly_market_rent = 2500) :=
  monthly_market_rent_rounded p1200 50 1200 rfl (by norm_num)

/-- The two independently rounded stored amounts differ from the rounded
market rent by at most one unit: each `roundHalfEven` moves its argument
by at most 1/2, and the resulting discrepancy is an integer of absolute
value at most 3/2, hence at most 1. -/
lemma roundHalfEven_add_sub_le_one (a c : ℚ) :
    |((roundHalfEven a : ℤ) : ℚ) + ((roundHalfEven (c - a) : ℤ) : ℚ)
      - ((roundHalfEven c : ℤ) : ℚ)| ≤ 1 := by
  have h1 := abs_roundHalfEven_sub_le a
  have h2 := abs_roundHalfEven_sub_le (c - a)
  have h3 := abs_roundHalfEven_sub_le c
  rw [abs_le] at h1 h2 h3
  set x := roundHalfEven a with hx
  set y := roundHalfEven (c - a) with hy
  set z := roundHalfEven c with hz
  have hub : ((x + y - z : ℤ) : ℚ) < 2 := by push_cast; linarith
  have hlb : (-2 : ℚ) < ((x + y - z : ℤ) : ℚ) := by push_cast; linarith
  have hub2 : x + y - z ≤ 1 := by
    have : x + y - z < 2 := by exact_mod_cast hub
    omega
  have hlb2 : -1 ≤ x + y - z := by
    have : (-2 : ℤ) < x + y - z := by exact_mod_cast hlb
    omega
  rw [abs_le]
  constructor
  · have h : ((-1 : ℤ) : ℚ) ≤ ((x + y - z : ℤ) : ℚ) := by exact_mod_cast hlb2
    push_cast at h
    linarith
  · have h : ((x + y - z : ℤ) : ℚ) ≤ ((1 : ℤ) : ℚ) := by exact_mod_cast hub2
    push_cast at h
    linarith

/-- Claim C6, counterexample: on `pBakery` (space 1000) at risk score 5
the stored fields are monthly_rent 417, deferred_amount 1667,
monthly_market_rent 2083, and 417 + 1667 = 2084 ≠ 2083: the rounded
fields do not satisfy the exact split identity. -/
theorem rent_split_counterexample :
    (generate_deal_terms pBakery 5).monthly_rent
        + (generate_deal_terms pBakery 5).deferred_amount
      ≠ (generate_deal_terms pBakery 5).monthly_market_rent := by
  have hupf : max 20 (min 50 (30 + ((5 : ℚ) - 50) / 50 * 15)) = 20 := by
    norm_num [min_def, max_def]
  have hmr : (generate_deal_terms pBakery 5).monthly_rent = 417 := by
    rw [generate_deal_terms_mr]
    have h : pBakery.space_size.getD 1000 * 25 / 12
        * (max 20 (min 50 (30 + ((5 : ℚ) - 50) / 50 * 15)) / 100) = 1250 / 3 := by
      rw [hupf]
      norm_num [pBakery]
    rw [h]
    unfold roundTo0
    rw [roundHalfEven_of_fract_gt (1250 / 3) 416 (by norm_num) (by norm_num)]
    norm_num
  have hda : (generate_deal_terms pBakery 5).deferred_amount = 1667 := by
    rw [generate_deal_terms_deferred]
    have h : pBakery.space_size.getD 1000 * 25 / 12
        - pBakery.space_size.getD 1000 * 25 / 12
          * (max 20 (min 50 (30 + ((5 : ℚ) - 50) / 50 * 15)) / 100) = 5000 / 3 := by
      rw [hupf]
      norm_num [pBakery]
    rw [h]
    unfold roundTo0
    rw [roundHalfEven_of_fract_gt (5000 / 3) 1666 (by norm_num) (by norm_num)]
    norm_num
  have hmmr : (generate_deal_terms pBakery 5).monthly_market_rent = 2083 := by
    rw [generate_deal_terms_mmr]
    have h : pBakery.space_size.getD 1000 * 25 / 12 = 6250 / 3 := by
      norm_num [pBakery]
    rw [h]
    unfold roundTo0
    rw [roundHalfEven_of_fract_lt (6250 / 3) 2083 (by norm_num) (by norm_num)]
    norm_num
  rw [hmr, hda, hmmr]
  norm_num

/-- Claim C6, amended: the exact (pre-rounding) monthly rent and
deferred amount sum to the exact monthly market rent by construction, so
the independently rounded stored fields satisfy the split identity to
within one currency unit: |monthly_rent + deferred_amount −
monthly_market_rent| ≤ 1 for every profile and score. -/
theorem rent_split_within_one (b : BusinessProfile) (s : ℚ) :
    |(generate_deal_terms b s).monthly_rent + (generate_deal_terms b s).deferred_amount
      - (generate_deal_terms b s).monthly_market_rent| ≤ 1 := by
  rw [generate_deal_terms_mr, generate_deal_terms_deferred, generate_deal_terms_mmr]
  unfold roundTo0
  exact roundHalfEven_add_sub_le_one
    (b.space_size.getD 1000 * 25 / 12 * (max 20 (min 50 (30 + (s - 50) / 50 * 15)) / 100))
    (b.space_size.getD 1000 * 25 / 12)

/-- Membership in `filter_deals` with only the risk filter active. -/
lemma filter_deals_all_risk_mem (df : List DealRow) (d : DealRow)
    (flt : String) (lo hi : ℚ) (hflt : risk_ranges flt = some (lo, hi))
    (hne : flt ≠ "All") :
    d ∈ filter_deals df "All" "All" "All" flt ↔
      d ∈ df ∧ lo ≤ d.risk_score ∧ d.risk_score ≤ hi := by
  unfold filter_deals
  simp only [ne_eq, not_true_eq_false, if_false, ite_not]
  rw [if_neg (by simp [hne]), hflt]
  simp [List.mem_filter]

/-- Claim C7: the risk buckets of `filter_deals` are inclusive at both
endpoints: a deal scoring exactly 40 matches the Low filter and not the
Medium filter; exactly 41 and exactly 70 match Medium; exactly 71
matches High. -/
theorem filter_deals_bucket_boundaries (df : List DealRow) (d : DealRow) (hd : d ∈ df) :
    (d.risk_score = 40 →
      d ∈ filter_deals df "All" "All" "All" "Low (0-40)" ∧
      d ∉ filter_deals df "All" "All" "All" "Medium (41-70)") ∧
    (d.risk_score = 41 → d ∈ filter_deals df "All" "All" "All" "Medium (41-70)") ∧
    (d.risk_score = 70 → d ∈ filter_deals df "All" "All" "All" "Medium (41-70)") ∧
    (d.risk_score = 71 → d ∈ filter_deals df "All" "All" "All" "High (71-100)") := by
  have hlow := filter_deals_all_risk_mem df d "Low (0-40)" 0 40 rfl (by decide)
  have hmed := filter_deals_all_risk_mem df d "Medium (41-70)" 41 70 rfl (by decide)
  have hhigh := filter_deals_all_risk_mem df d "High (71-100)" 71 100 rfl (by decide)
  refine ⟨fun h40 => ⟨?_, ?_⟩, fun h41 => ?_, fun h70 => ?_, fun h71 => ?_⟩
  · exact hlow.mpr ⟨hd, by rw [h40]; norm_num, by rw [h40]⟩
  · intro hmem
    have := (hmed.mp hmem).2.1
    rw [h40] at this
    norm_num at this
  · exact hmed.mpr ⟨hd, by rw [h41], by rw [h41]; norm_num⟩
  · exact hmed.mpr ⟨hd, by rw [h70]; norm_num, by rw [h70]⟩
  · exact hhigh.mpr ⟨hd, by rw [h71], by rw [h71]; norm_num⟩

/-- A deal row scoring exactly 40, used to witness the bucket boundary. -/
def row40 : DealRow :=
  { status := "pending", business_type := "Restaurant", location := "NYC", risk_score := 40 }

/-- Witness for `filter_deals_bucket_boundaries` on the singleton frame
containing `row40`. -/
theorem filter_deals_bucket_boundaries_witness :
    (row40.risk_score = 40 →
      row40 ∈ filter_deals [row40] "All" "All" "All" "Low (0-40)" ∧
      row40 ∉ filter_deals [row40] "All" "All" "All" "Medium (41-70)") ∧
    (row40.risk_score = 41 → row40 ∈ filter_deals [row40] "All" "All" "All" "Medium (41-70)") ∧
    (row40.risk_score = 70 → row40 ∈ filter_deals [row40] "All" "All" "All" "Medium (41-70)") ∧
    (row40.risk_score = 71 → row40 ∈ filter_deals [row40] "All" "All" "All" "High (71-100)") :=
  filter_deals_bucket_boundaries [row40] row40 (List.mem_cons_self row40 [])

/-- Claim C8: `update_deal_status` on an id held by no stored deal is a
total, silent no-op: the list persisted back is the list loaded. -/
theorem update_deal_status_missing_id (now : String) (deals : List Deal)
    (deal_id new_status : String)
    (h : ∀ d ∈ deals, d.id ≠ some deal_id) :
    update_deal_status now deals deal_id new_status = deals := by
  induction deals with
  | nil => rfl
  | cons d ds ih =>
    rw [update_deal_status, if_neg (h d (List.mem_cons_self d ds)),
      ih (fun e he => h e (List.mem_cons_of_mem d he))]

/-- A sample stored deal with id "a". -/
def dealA : Deal :=
  { id := some "a", status := "pending", updated_at := "t0",
    approved_at := none, rejected_at := none, rest := [] }

/-- A sample stored deal with id "b" and no rejection stamp. -/
def dealB : Deal :=
  { id := some "b", status := "pending", updated_at := "t0",
    approved_at := none, rejected_at := none, rest := [("business_name", "Acme")] }

/-- A sample stored deal with id "c". -/
def dealC : Deal :=
  { id := some "c", status := "approved", updated_at := "t0",
    approved_at := some "t0", rejected_at := none, rest := [] }

/-- Witness for `update_deal_status_missing_id`: updating id "z", absent
from the store, changes nothing. -/
theorem update_deal_status_missing_id_witness :
    update_deal_status "t1" [dealA, dealB] "z" "approved" = [dealA, dealB] :=
  update_deal_status_missing_id "t1" [dealA, dealB] "z" "approved"
    (by
      intro d hd
      rcases List.mem_cons.mp hd with h | h
      · rw [h]; decide
      · rw [List.mem_singleton.mp h]; decide)

/-- Claim C9: approving a stored deal (present, unique id, no
`rejected_at`) sets its status to "approved", refreshes `updated_at`,
stamps `approved_at`, leaves `rejected_at` unset, and leaves every other
field of the deal and every other deal in the collection unchanged. -/
theorem update_deal_status_approve (now : String) (pre post : List Deal)
    (d : Deal) (deal_id : String)
    (hid : d.id = some deal_id)
    (hpre : ∀ e ∈ pre, e.id ≠ some deal_id)
    (hrej : d.rejected_at = none) :
    update_deal_status now (pre ++ d :: post) deal_id "approved"
      = pre ++ ({ d with
                  status := "approved"
                  updated_at := now
                  approved_at := some now
                  rejected_at := none } :: post) := by
  induction pre with
  | nil =>
    simp only [List.nil_append]
    rw [update_deal_status, if_pos hid]
    simp [hrej]
  | cons e es ih =>
    simp only [List.cons_append]
    rw [update_deal_status, if_neg (hpre e (List.mem_cons_self e es)),
      ih (fun x hx => hpre x (List.mem_cons_of_mem e hx))]

/-- Witness for `update_deal_status_approve`: approving `dealB` between
`dealA` and `dealC`. -/
theorem update_deal_status_approve_witness :
    update_deal_status "t1" ([dealA] ++ dealB :: [dealC]) "b" "approved"
      = [dealA] ++ ({ dealB with
                      status := "approved"
                      updated_at := "t1"
                      approved_at := some "t1"
                      rejected_at := none } :: [dealC]) :=
  update_deal_status_approve "t1" [dealA] [dealC] dealB "b" rfl
    (by
      intro e he
      rw [List.mem_singleton.mp he]
      decide)
    rfl

end EquiLease
